import Mathlib

/-!
Shallow embedding of the treasury backend (`src/backend/main.py` together with
the Pydantic schemas in `src/backend/schemas.py`), covering the two subsystems
with logic: the authentication/token subsystem (`login`, `get_current_user`,
`refresh_token`, `create_token`, `decode_token`) and the aggregation engine
(`summary`, `month_name`, `MONTHS`).

Modelling conventions:
* MongoDB collections are lists of records; `find_one` is `List.find?` and
  counting/filtering is `List.filter`.
* JWTs are modelled symbolically: a token is its claim set plus the `exp`
  claim plus the secret it was signed with.  Two tokens are equal (as wire
  strings) iff these components are equal, which matches deterministic
  HMAC-SHA256 encoding of equal payloads.
* Wall-clock time is an integer number of seconds passed explicitly; the
  Python code reads `datetime.now(timezone.utc)`.
* Monetary amounts (`nominal`, `total_bersih`), Python floats in the source,
  are modelled as integers (exact arithmetic); every claim under study is
  about which records are selected and summed, not float rounding.
* Python truthiness of optional parameters (`if tahun:`, `if username:`) is
  modelled by `truthyInt` / `truthyStr`: `None`, `0` and `""` are falsy.
* `HTTPException` is the pair (status code, detail string), so distinct error
  raises in the source are distinct values here.
-/

namespace Treasurer

/-- Python truthiness for an optional string: `None` and `""` are falsy. -/
def truthyStr : Option String → Bool
  | some s => s != ""
  | none => false

/-- Python truthiness for an optional integer: `None` and `0` are falsy. -/
def truthyInt : Option Int → Bool
  | some n => n != 0
  | none => false

/-- FastAPI `HTTPException(status_code=..., detail=...)`. -/
structure HTTPException where
  status_code : Nat
  detail : String
deriving DecidableEq, Repr

/-- `JWT_SECRET = os.getenv("JWT_SECRET", "dev-secret-change-me")`: the
environment default. -/
def JWT_SECRET : String := "dev-secret-change-me"

/-- `ACCESS_EXPIRES_MIN = int(os.getenv("ACCESS_EXPIRES_MIN", "30"))`. -/
def ACCESS_EXPIRES_MIN : Int := 30

/-- `REFRESH_EXPIRES_DAYS = int(os.getenv("REFRESH_EXPIRES_DAYS", "7"))`. -/
def REFRESH_EXPIRES_DAYS : Int := 7

/-- The JWT claim keys the backend ever writes or reads, each optional
(`payload.get(...)` returns `None` for an absent key). -/
structure Claims where
  uid : Option String
  username : Option String
  role : Option String
  type : Option String
deriving DecidableEq, Repr

/-- A signed JWT: its claims, its `exp` claim (seconds), and the secret used
to sign it. -/
structure Token where
  claims : Claims
  exp : Int
  secret : String
deriving DecidableEq, Repr

/-- A document of the `user` collection (schema `User` plus the Mongo `_id`,
stored here as a string). -/
structure UserDoc where
  id : String
  username : String
  email : String
  password_hash : String
  role : String
deriving DecidableEq, Repr

/-- A document of the `refreshtoken` collection (schema `RefreshToken`). -/
structure RefreshTokenDoc where
  user_id : String
  token : Token
  expires_at : Int
  created_at : Int
deriving DecidableEq, Repr

/-- A document of the `santri` collection; the fields the summary endpoint
reads (`_id`, `gender`, `asrama`, `kelas`, `aktif`) plus identity fields.
`kobong`, `alamat`, `kabupaten` are never read by the code under study. -/
structure SantriDoc where
  id : String
  nis : String
  nama : String
  kelas : String
  asrama : String
  gender : String
  aktif : Bool
deriving DecidableEq, Repr

/-- A document of the `pembayaransyariah` collection.  `status` is optional
because the code reads it with `p.get("status")`. -/
structure PembayaranDoc where
  santri_id : String
  bulan : String
  tahun : Int
  nominal : Int
  status : Option String
deriving DecidableEq, Repr

/-- A document of the `gajipegawai` collection.  `status` is optional because
the code reads it with `g.get("status")`. -/
structure GajiDoc where
  pegawai_id : String
  bulan : Int
  tahun : Int
  total_bersih : Int
  status : Option String
deriving DecidableEq, Repr

/-- A document of the `transaksi` collection; the summary endpoint reads only
`jenis` and `nominal`. -/
structure TransaksiDoc where
  jenis : String
  nominal : Int
deriving DecidableEq, Repr

/-- The persisted store: one list per MongoDB collection used by the code
under study (the `pegawai` collection is not read by it). -/
structure Store where
  user : List UserDoc
  refreshtoken : List RefreshTokenDoc
  santri : List SantriDoc
  pembayaransyariah : List PembayaranDoc
  gajipegawai : List GajiDoc
  transaksi : List TransaksiDoc
deriving DecidableEq, Repr

/-- Model of `pwd_context.hash` (bcrypt): an opaque injective tag.  The
claims under study depend only on `verify_password p (hash_password p) = true`
and on hashes being compared, never forged. -/
def hash_password (password : String) : String := "$2b$" ++ password

/-- Model of `pwd_context.verify`. -/
def verify_password (password password_hash : String) : Bool :=
  password_hash == hash_password password

/-- `create_token(payload, expires_delta)`: copies the payload and adds
`exp = now + expires_delta`, then signs with `JWT_SECRET`.
`expires_delta` is in seconds. -/
def create_token (payload : Claims) (now expires_delta : Int) : Token :=
  { claims := payload, exp := now + expires_delta, secret := JWT_SECRET }

/-- `decode_token(token)`: PyJWT verifies the signature first
(`InvalidTokenError` → 401 "Invalid token"), then the `exp` claim
(`ExpiredSignatureError` → 401 "Token expired"). -/
def decode_token (token : Token) (now : Int) : Except HTTPException Claims :=
  if token.secret != JWT_SECRET then .error ⟨401, "Invalid token"⟩
  else if token.exp ≤ now then .error ⟨401, "Token expired"⟩
  else .ok token.claims

/-- `get_current_user`: the auth middleware.  Rejects a missing credential,
propagates decode failures, rejects a falsy `uid` claim, looks the user up by
`_id`, falls back to a lookup by the `username` claim, and otherwise fails
with 401 "User not found".  (The discarded placeholder query on line 74 of
the source has no effect and is omitted.) -/
def get_current_user (st : Store) (credentials : Option Token) (now : Int) :
    Except HTTPException UserDoc :=
  match credentials with
  | none => .error ⟨401, "Not authenticated"⟩
  | some token =>
    match decode_token token now with
    | .error e => .error e
    | .ok payload =>
      if !truthyStr payload.uid then .error ⟨401, "Invalid token payload"⟩
      else
        match st.user.find? (fun u => u.id == payload.uid.getD "") with
        | some user => .ok user
        | none =>
          if truthyStr payload.username then
            match st.user.find? (fun u => u.username == payload.username.getD "") with
            | some user => .ok user
            | none => .error ⟨401, "User not found"⟩
          else .error ⟨401, "User not found"⟩

/-- The lookup filter of `login`:
`q = {"username": username} if username else {"email": email}`. -/
def login_query (username email : Option String) : UserDoc → Bool :=
  if truthyStr username then fun u => u.username == username.getD ""
  else fun u => u.email == email.getD ""

/-- What `login` returns on success: both tokens plus the user summary
`{"username": ..., "email": ..., "role": ...}`. -/
structure LoginResult where
  access_token : Token
  refresh_token : Token
  user_username : String
  user_email : String
  user_role : String
deriving DecidableEq, Repr

/-- `POST /auth/login`.  Requires a truthy username or email; looks the user
up; on a missing user or a failed hash comparison raises the single
401 "Invalid credentials"; on success mints the access token
(claims `uid`, `username`, `role`) and the refresh token (claims `uid`,
`type="refresh"`), persists the refresh token, and returns both with the
user summary. -/
def login (st : Store) (username email : Option String) (password : String)
    (now : Int) : Except HTTPException (LoginResult × Store) :=
  if !truthyStr username && !truthyStr email then
    .error ⟨400, "Provide username or email"⟩
  else
    match st.user.find? (login_query username email) with
    | none => .error ⟨401, "Invalid credentials"⟩
    | some user =>
      if !verify_password password user.password_hash then
        .error ⟨401, "Invalid credentials"⟩
      else
        let access := create_token
          ⟨some user.id, some user.username, some user.role, none⟩
          now (60 * ACCESS_EXPIRES_MIN)
        let refresh := create_token
          ⟨some user.id, none, none, some "refresh"⟩
          now (86400 * REFRESH_EXPIRES_DAYS)
        let st2 : Store := { st with
          refreshtoken := st.refreshtoken ++
            [⟨user.id, refresh, now + 86400 * REFRESH_EXPIRES_DAYS, now⟩] }
        .ok (⟨access, refresh, user.username, user.email, user.role⟩, st2)

/-- `POST /auth/refresh`.  Decodes the presented token, rejects a claim
`type ≠ "refresh"` with 400 "Invalid refresh token", rejects a token with no
persisted `refreshtoken` record with 401 "Refresh token not recognized", and
otherwise mints a fresh access token carrying only the `uid` claim.  The
store is returned unchanged: the handler performs no write. -/
def refresh_token (st : Store) (rt : Token) (now : Int) :
    Except HTTPException (Token × Store) :=
  match decode_token rt now with
  | .error e => .error e
  | .ok payload =>
    if payload.type != some "refresh" then
      .error ⟨400, "Invalid refresh token"⟩
    else
      match st.refreshtoken.find? (fun d => d.token == rt) with
      | none => .error ⟨401, "Refresh token not recognized"⟩
      | some _ =>
        .ok (create_token ⟨payload.uid, none, none, none⟩ now
              (60 * ACCESS_EXPIRES_MIN), st)

/-- Observable outcome of an `Except`-returning handler: did it succeed. -/
def exceptOk : Except HTTPException α → Bool
  | .ok _ => true
  | .error _ => false

/-- The user summary visible to a caller of `login` (`None` on failure). -/
def login_user_summary :
    Except HTTPException (LoginResult × Store) → Option (String × String × String)
  | .ok (r, _) => some (r.user_username, r.user_email, r.user_role)
  | .error _ => none

/-- The constant `MONTHS`: Indonesian month names. -/
def MONTHS : List String :=
  ["Januari", "Februari", "Maret", "April", "Mei", "Juni",
   "Juli", "Agustus", "September", "Oktober", "November", "Desember"]

/-- Python list indexing `xs[i]`, including negative indices; `none` models
an `IndexError`. -/
def pyIndex (xs : List String) (i : Int) : Option String :=
  if 0 ≤ i then xs.get? i.toNat
  else if i.natAbs ≤ xs.length then xs.get? (xs.length - i.natAbs)
  else none

/-- `month_name(m)`: `MONTHS[m-1] if 1 <= m <= 12 else ""`.  The `getD`
default stands for the `IndexError` branch of `MONTHS[m-1]`; the guard is
proved to make it unreachable. -/
def month_name (m : Int) : String :=
  if 1 ≤ m ∧ m ≤ 12 then (pyIndex MONTHS (m - 1)).getD "IndexError" else ""

/-- The optional query parameters of `GET /summary`. -/
structure SummaryFilters where
  tahun : Option Int
  bulan : Option Int
  asrama : Option String
  kelas : Option String
  gender : Option String
deriving DecidableEq, Repr

/-- The `s_filt` santri filter built inside `summary` from the truthy
`gender` / `asrama` / `kelas` parameters. -/
def santri_matches (f : SummaryFilters) (s : SantriDoc) : Bool :=
  (!truthyStr f.gender || s.gender == f.gender.getD "") &&
  (!truthyStr f.asrama || s.asrama == f.asrama.getD "") &&
  (!truthyStr f.kelas || s.kelas == f.kelas.getD "")

/-- `ids = [str(s.get("_id")) for s in collection("santri").find(s_filt, ...)]`. -/
def resolved_santri_ids (st : Store) (f : SummaryFilters) : List String :=
  (st.santri.filter (santri_matches f)).map (fun s => s.id)

/-- The value a Mongo filter dict holds under `santri_id`: absent, a
`{"$in": ids}` set-membership test, or a literal equality test. -/
inductive IdFilter where
  | any : IdFilter
  | inSet : List String → IdFilter
  | eq : String → IdFilter
deriving DecidableEq, Repr

/-- Whether a `santri_id` value passes an `IdFilter`. -/
def idFilterMatches : IdFilter → String → Bool
  | .any, _ => true
  | .inSet ids, s => ids.contains s
  | .eq v, s => s == v

/-- The `santri_id` entry of `sy_filt`:
`sy_filt["santri_id"] = {"$in": ids} if ids else "__none__"`, and no entry
when none of gender/asrama/kelas is truthy. -/
def sy_santri_id_filter (st : Store) (f : SummaryFilters) : IdFilter :=
  if truthyStr f.gender || truthyStr f.asrama || truthyStr f.kelas then
    let ids := resolved_santri_ids st f
    if ids.isEmpty then .eq "__none__" else .inSet ids
  else .any

/-- The `tahun` entry of `sy_filt` (`if tahun: sy_filt["tahun"] = tahun`). -/
def sy_tahun_filter (f : SummaryFilters) : Option Int :=
  if truthyInt f.tahun then f.tahun else none

/-- The `bulan` entry of `sy_filt`
(`if bulan: sy_filt["bulan"] = month_name(bulan)`): a month NAME string. -/
def sy_bulan_filter (f : SummaryFilters) : Option String :=
  if truthyInt f.bulan then some (month_name (f.bulan.getD 0)) else none

/-- An absent dict entry matches everything; a present one is an equality
test. -/
def optEq [BEq α] : Option α → α → Bool
  | none, _ => true
  | some v, x => x == v

/-- Whether a `pembayaransyariah` document passes `sy_filt`. -/
def pembayaran_matches (st : Store) (f : SummaryFilters) (p : PembayaranDoc) : Bool :=
  optEq (sy_tahun_filter f) p.tahun &&
  optEq (sy_bulan_filter f) p.bulan &&
  idFilterMatches (sy_santri_id_filter st f) p.santri_id

/-- `pembayaran = list(collection("pembayaransyariah").find(sy_filt))`. -/
def filtered_pembayaran (st : Store) (f : SummaryFilters) : List PembayaranDoc :=
  st.pembayaransyariah.filter (pembayaran_matches st f)

/-- The `tahun` entry of `gaji_filt` (`if tahun: gaji_filt["tahun"] = tahun`). -/
def gaji_tahun_filter (f : SummaryFilters) : Option Int :=
  if truthyInt f.tahun then f.tahun else none

/-- The `bulan` entry of `gaji_filt`
(`if bulan: gaji_filt["bulan"] = bulan`): the raw month INTEGER. -/
def gaji_bulan_filter (f : SummaryFilters) : Option Int :=
  if truthyInt f.bulan then f.bulan else none

/-- Whether a `gajipegawai` document passes `gaji_filt`. -/
def gaji_matches (f : SummaryFilters) (g : GajiDoc) : Bool :=
  optEq (gaji_tahun_filter f) g.tahun && optEq (gaji_bulan_filter f) g.bulan

/-- `gaji_items = list(collection("gajipegawai").find(gaji_filt))`. -/
def filtered_gaji (st : Store) (f : SummaryFilters) : List GajiDoc :=
  st.gajipegawai.filter (gaji_matches f)

/-- The eight figures of the `GET /summary` response. -/
structure SummaryReport where
  total_santri_aktif : Nat
  total_pemasukan : Int
  total_pengeluaran : Int
  pembayaran_syariah_lunas : Nat
  pembayaran_syariah_belum : Nat
  jumlah_tunggakan : Int
  total_gaji_bulan_ini : Int
  total_gaji_tertunda : Int
deriving DecidableEq, Repr

/-- `GET /summary`: a pure fold over the store.  Income and expense totals
read the whole `transaksi` collection through fixed `jenis` filters; the
syariah payments go through `sy_filt`; the payroll records through
`gaji_filt`. -/
def summary (st : Store) (f : SummaryFilters) : SummaryReport :=
  let pembayaran := filtered_pembayaran st f
  let pembayaran_lunas := pembayaran.filter (fun p => p.status == some "Lunas")
  let pembayaran_belum := pembayaran.filter (fun p => !(p.status == some "Lunas"))
  let gaji_items := filtered_gaji st f
  { total_santri_aktif := (st.santri.filter (fun s => s.aktif)).length
    total_pemasukan :=
      ((st.transaksi.filter (fun t => t.jenis == "pemasukan")).map
        (fun t => t.nominal)).sum
    total_pengeluaran :=
      ((st.transaksi.filter (fun t => t.jenis == "pengeluaran")).map
        (fun t => t.nominal)).sum
    pembayaran_syariah_lunas := pembayaran_lunas.length
    pembayaran_syariah_belum := pembayaran_belum.length
    jumlah_tunggakan := (pembayaran_belum.map (fun p => p.nominal)).sum
    total_gaji_bulan_ini :=
      ((gaji_items.filter (fun g => g.status == some "Dibayar")).map
        (fun g => g.total_bersih)).sum
    total_gaji_tertunda :=
      ((gaji_items.filter (fun g => !(g.status == some "Dibayar"))).map
        (fun g => g.total_bersih)).sum }

/-! Concrete sample data, used to evaluate the embedding on closed inputs:
the seeded admin user of `seed_admin` and the tokens `login` mints for it at
time 0. -/

/-- The seeded admin user (`seed_admin` in the source), with string id "u1". -/
def adminUser : UserDoc :=
  ⟨"u1", "admin", "bendahara@gmail.com", hash_password "bendahara", "admin"⟩

/-- A store holding only the seeded admin user. -/
def adminStore : Store := ⟨[adminUser], [], [], [], [], []⟩

/-- The access token `login` mints for the admin at time 0. -/
def adminAccess : Token :=
  create_token ⟨some "u1", some "admin", some "admin", none⟩ 0
    (60 * ACCESS_EXPIRES_MIN)

/-- The refresh token `login` mints for the admin at time 0. -/
def adminRefresh : Token :=
  create_token ⟨some "u1", none, none, some "refresh"⟩ 0
    (86400 * REFRESH_EXPIRES_DAYS)

/-- The response `login` returns for the admin at time 0. -/
def adminLoginResult : LoginResult :=
  ⟨adminAccess, adminRefresh, "admin", "bendahara@gmail.com", "admin"⟩

/-- `adminStore` after the successful login persisted the refresh token. -/
def adminStore2 : Store :=
  { adminStore with
    refreshtoken := [⟨"u1", adminRefresh, 0 + 86400 * REFRESH_EXPIRES_DAYS, 0⟩] }

/-- The store of the concrete summary scenario: one income transaction of
1000000 and one expense transaction of 250000 (`jenis` is the source's name
for the transaction type; "pemasukan" = income, "pengeluaran" = expense). -/
def scenarioStore : Store :=
  { user := [], refreshtoken := [], santri := [], pembayaransyariah := [],
    gajipegawai := [],
    transaksi := [⟨"pemasukan", 1000000⟩, ⟨"pengeluaran", 250000⟩] }

/-- A store with no santri but one syariah payment whose `santri_id` happens
to be the literal sentinel string "__none__". -/
def sentinelStore : Store :=
  { user := [], refreshtoken := [],
    santri := [],
    pembayaransyariah := [⟨"__none__", "Januari", 2024, 100, some "Lunas"⟩],
    gajipegawai := [], transaksi := [] }

/-- Summary filters selecting only gender, so the santri id set is resolved. -/
def genderOnlyFilters : SummaryFilters := ⟨none, none, none, none, some "Putra"⟩

/-- Summary filters selecting only the month 5 (Mei). -/
def monthOnlyFilters : SummaryFilters := ⟨none, some 5, none, none, none⟩

/-! Shared helper lemmas. -/

/-- Inversion for `decode_token`: success means the signature secret is the
server secret, the token is unexpired, and the returned claims are the
token's claims. -/
theorem decode_token_ok_iff {tok : Token} {now : Int} {c : Claims} :
    decode_token tok now = Except.ok c ↔
      tok.secret = JWT_SECRET ∧ now < tok.exp ∧ c = tok.claims := by
  unfold decode_token
  by_cases hs : tok.secret = JWT_SECRET
  · by_cases he : tok.exp ≤ now
    · simp [hs, he]
    · simp [hs, he]
      constructor
      · intro h
        exact ⟨by omega, h.symm⟩
      · intro h
        exact h.2.symm
  · simp [hs]

/-- Inversion for a successful `login`: the identifier resolved to a user,
its hash verified, and the result and store update are the minted values. -/
theorem login_ok_inv {st : Store} {username email : Option String}
    {password : String} {now : Int} {r : LoginResult} {st2 : Store}
    (h : login st username email password now = Except.ok (r, st2)) :
    ∃ u, st.user.find? (login_query username email) = some u
      ∧ verify_password password u.password_hash = true
      ∧ r = ⟨create_token ⟨some u.id, some u.username, some u.role, none⟩ now
              (60 * ACCESS_EXPIRES_MIN),
             create_token ⟨some u.id, none, none, some "refresh"⟩ now
              (86400 * REFRESH_EXPIRES_DAYS),
             u.username, u.email, u.role⟩
      ∧ st2 = { st with refreshtoken := st.refreshtoken ++
          [⟨u.id, create_token ⟨some u.id, none, none, some "refresh"⟩ now
              (86400 * REFRESH_EXPIRES_DAYS),
            now + 86400 * REFRESH_EXPIRES_DAYS, now⟩] } := by
  unfold login at h
  split at h
  · exact absurd h (by simp)
  · split at h
    · exact absurd h (by simp)
    · next u hfind =>
      split at h
      · exact absurd h (by simp)
      · next hv =>
        rw [Except.ok.injEq, Prod.mk.injEq] at h
        obtain ⟨hr, hst⟩ := h
        refine ⟨u, hfind, ?_, hr.symm, hst.symm⟩
        simpa using hv

/-- Inversion for a successful `refresh_token`: the token verified and was
unexpired, carried `type = "refresh"`, had a persisted record, and the
result is the uid-only access token with the store unchanged. -/
theorem refresh_token_ok_inv {st : Store} {rt : Token} {now : Int}
    {tok : Token} {st2 : Store}
    (h : refresh_token st rt now = Except.ok (tok, st2)) :
    rt.secret = JWT_SECRET ∧ now < rt.exp
      ∧ rt.claims.type = some "refresh"
      ∧ (∃ d, st.refreshtoken.find? (fun d => d.token == rt) = some d)
      ∧ tok = create_token ⟨rt.claims.uid, none, none, none⟩ now
          (60 * ACCESS_EXPIRES_MIN)
      ∧ st2 = st := by
  unfold refresh_token at h
  split at h
  · exact absurd h (by simp)
  · next c hd =>
    obtain ⟨hs, hlt, hc⟩ := decode_token_ok_iff.mp hd
    subst hc
    split at h
    · exact absurd h (by simp)
    · next hty =>
      split at h
      · exact absurd h (by simp)
      · next d hfind =>
        rw [Except.ok.injEq, Prod.mk.injEq] at h
        obtain ⟨htok, hst⟩ := h
        refine ⟨hs, hlt, ?_, ⟨d, hfind⟩, htok.symm, hst.symm⟩
        simpa [bne_iff_ne] using hty

/-- A filter and its complement partition a list's length. -/
theorem filter_partition_length (l : List α) (p : α → Bool) :
    (l.filter p).length + (l.filter (fun a => !p a)).length = l.length := by
  induction l with
  | nil => rfl
  | cons a l ih =>
    cases h : p a <;> simp [List.filter_cons, h] <;> omega

/-- A filter and its complement partition a sum of integer values. -/
theorem filter_partition_sum (l : List α) (p : α → Bool) (v : α → Int) :
    ((l.filter p).map v).sum + ((l.filter (fun a => !p a)).map v).sum
      = (l.map v).sum := by
  induction l with
  | nil => rfl
  | cons a l ih =>
    cases h : p a <;> simp [List.filter_cons, h] <;> omega

/-! Claim theorems. -/

/-- C5: the `total_pemasukan` (income) and `total_pengeluaran` (expense)
figures of `summary` are the sums of `nominal` over all `transaksi` records
of `jenis` "pemasukan" resp. "pengeluaran", independently of every supplied
filter; in particular, on a store containing an income transaction of
1000000 and an expense transaction of 250000, every choice of filters yields
total_pemasukan = 1000000 and total_pengeluaran = 250000. -/
theorem c5_income_expense_filter_independent :
    (∀ (st : Store) (f : SummaryFilters),
      (summary st f).total_pemasukan
          = ((st.transaksi.filter (fun t => t.jenis == "pemasukan")).map
              (fun t => t.nominal)).sum
        ∧ (summary st f).total_pengeluaran
          = ((st.transaksi.filter (fun t => t.jenis == "pengeluaran")).map
              (fun t => t.nominal)).sum)
    ∧ (∀ f : SummaryFilters,
      (summary scenarioStore f).total_pemasukan = 1000000
        ∧ (summary scenarioStore f).total_pengeluaran = 250000) :=
  ⟨fun _ _ => ⟨rfl, rfl⟩, fun _ => ⟨rfl, rfl⟩⟩

/-- C9: the status partitions of `summary` are exhaustive and disjoint: the
lunas and belum counts split the filtered syariah payments (lunas iff
`status = "Lunas"`), and the two payroll sums split the total `total_bersih`
of the filtered payroll records (paid iff `status = "Dibayar"`). -/
theorem c9_summary_partitions (st : Store) (f : SummaryFilters) :
    ((summary st f).pembayaran_syariah_lunas
        + (summary st f).pembayaran_syariah_belum
        = (filtered_pembayaran st f).length
      ∧ (summary st f).pembayaran_syariah_lunas
        = ((filtered_pembayaran st f).filter
            (fun p => p.status == some "Lunas")).length)
    ∧ ((summary st f).total_gaji_bulan_ini + (summary st f).total_gaji_tertunda
        = ((filtered_gaji st f).map (fun g => g.total_bersih)).sum
      ∧ (summary st f).total_gaji_bulan_ini
        = (((filtered_gaji st f).filter (fun g => g.status == some "Dibayar")).map
            (fun g => g.total_bersih)).sum) :=
  ⟨⟨filter_partition_length _ _, rfl⟩, ⟨filter_partition_sum _ _ _, rfl⟩⟩

/-- C10: `month_name` is total on every integer: inside 1..12 it returns the
successfully indexed `MONTHS[m-1]` (no IndexError), outside it returns "";
and when a month filter is supplied, the syariah filter carries the month
NAME while the payroll filter carries the raw month INTEGER. -/
theorem c10_month_name_total (m : Int) (f : SummaryFilters) :
    ((1 ≤ m ∧ m ≤ 12) → pyIndex MONTHS (m - 1) = some (month_name m))
    ∧ (¬(1 ≤ m ∧ m ≤ 12) → month_name m = "")
    ∧ (truthyInt f.bulan = true →
        sy_bulan_filter f = some (month_name (f.bulan.getD 0))
          ∧ gaji_bulan_filter f = f.bulan) := by
  refine ⟨?_, ?_, ?_⟩
  · rintro ⟨h1, h2⟩
    interval_cases m <;> decide
  · intro h
    simp only [month_name]
    exact if_neg h
  · intro h
    simp [sy_bulan_filter, gaji_bulan_filter, h]

/-- C10 witness: at month 5, the index succeeds and the two sub-reports see
the month as "Mei" and as 5 respectively. -/
theorem c10_month_name_total_witness :
    pyIndex MONTHS (5 - 1) = some (month_name 5)
    ∧ sy_bulan_filter monthOnlyFilters = some (month_name 5)
    ∧ gaji_bulan_filter monthOnlyFilters = some 5 := by
  have h := c10_month_name_total 5 monthOnlyFilters
  exact ⟨h.1 (by decide), (h.2.2 (by decide)).1, (h.2.2 (by decide)).2⟩

/-- C6 counterexample: with a gender filter and an empty resolved santri id
set, the sentinel filter `santri_id = "__none__"` still matches a payment
record whose `santri_id` is the literal string "__none__" — the claim's
"matches no PembayaranSyariah record at all, for every store state" fails. -/
theorem c6_counterexample :
    truthyStr genderOnlyFilters.gender = true
    ∧ resolved_santri_ids sentinelStore genderOnlyFilters = []
    ∧ (summary sentinelStore genderOnlyFilters).pembayaran_syariah_lunas = 1 :=
  ⟨rfl, rfl, rfl⟩

/-- C6 (amended): when any of the gender/asrama/kelas filters is supplied,
the santri id set is resolved first and a nonempty set restricts payments to
it; an empty set produces the sentinel equality filter
`santri_id = "__none__"`, which matches only records whose `santri_id` is
that literal string — hence nothing, in every store in which no payment
record uses the sentinel string as its `santri_id`. -/
theorem c6_empty_santri_set_sentinel (st : Store) (f : SummaryFilters)
    (hf : (truthyStr f.gender || truthyStr f.asrama || truthyStr f.kelas) = true) :
    (resolved_santri_ids st f ≠ [] →
      ∀ p ∈ filtered_pembayaran st f, p.santri_id ∈ resolved_santri_ids st f)
    ∧ (resolved_santri_ids st f = [] →
      ∀ p ∈ filtered_pembayaran st f, p.santri_id = "__none__")
    ∧ (resolved_santri_ids st f = [] →
      (∀ p ∈ st.pembayaransyariah, p.santri_id ≠ "__none__") →
      filtered_pembayaran st f = []) := by
  have hid : sy_santri_id_filter st f =
      (if (resolved_santri_ids st f).isEmpty then IdFilter.eq "__none__"
       else IdFilter.inSet (resolved_santri_ids st f)) := by
    simp [sy_santri_id_filter, hf]
  refine ⟨?_, ?_, ?_⟩
  · intro hne p hp
    rw [filtered_pembayaran, List.mem_filter] at hp
    have hm := hp.2
    simp only [pembayaran_matches, Bool.and_eq_true] at hm
    have hc := hm.2
    rw [hid, if_neg (by simp [hne])] at hc
    simpa [idFilterMatches, List.contains, List.elem_iff] using hc
  · intro hempty p hp
    rw [filtered_pembayaran, List.mem_filter] at hp
    have hm := hp.2
    simp only [pembayaran_matches, Bool.and_eq_true] at hm
    have hc := hm.2
    rw [hid, if_pos (by simp [hempty])] at hc
    simpa [idFilterMatches] using hc
  · intro hempty hnone
    rw [filtered_pembayaran, List.filter_eq_nil_iff]
    intro p hp hm
    simp only [pembayaran_matches, Bool.and_eq_true] at hm
    have hc := hm.2
    rw [hid, if_pos (by simp [hempty])] at hc
    exact hnone p hp (by simpa [idFilterMatches] using hc)

/-- C6 witness: on a store whose payments never use the sentinel string, a
gender filter with an empty resolved id set selects no payment. -/
theorem c6_empty_santri_set_sentinel_witness :
    filtered_pembayaran
      { sentinelStore with
        pembayaransyariah := [⟨"s1", "Januari", 2024, 100, some "Lunas"⟩] }
      genderOnlyFilters = [] := by
  refine (c6_empty_santri_set_sentinel _ genderOnlyFilters (by decide)).2.2 rfl ?_
  intro p hp
  simp only [List.mem_singleton] at hp
  subst hp
  decide

/-- C1 counterexample: the refresh token minted by a real login carries
`type = "refresh"`, yet `get_current_user` ACCEPTS it as an authenticating
credential (the middleware never inspects the `type` claim), contradicting
the claim that every refresh-typed token is rejected there. -/
theorem c1_counterexample :
    login adminStore (some "admin") none "bendahara" 0
      = Except.ok (adminLoginResult, adminStore2)
    ∧ adminRefresh.claims.type = some "refresh"
    ∧ get_current_user adminStore2 (some adminRefresh) 0 = Except.ok adminUser :=
  ⟨rfl, rfl, rfl⟩

/-- C1 (amended): the separation holds in one direction only: a token whose
claims lack `type = "refresh"` is never accepted by `/auth/refresh`, but
`get_current_user` is entirely insensitive to the `type` claim, so
refresh-typed tokens are accepted as access credentials. -/
theorem c1_access_refresh_separation (st : Store) (tok : Token) (now : Int) :
    (tok.claims.type ≠ some "refresh" →
      exceptOk (refresh_token st tok now) = false)
    ∧ get_current_user st (some tok) now
        = get_current_user st
            (some ⟨⟨tok.claims.uid, tok.claims.username, tok.claims.role,
                    some "refresh"⟩, tok.exp, tok.secret⟩) now := by
  constructor
  · intro h
    unfold refresh_token
    cases hd : decode_token tok now with
    | error e => rfl
    | ok c =>
      obtain ⟨-, -, hc⟩ := decode_token_ok_iff.mp hd
      subst hc
      simp [bne_iff_ne, h, exceptOk]
  · obtain ⟨⟨uid, un, rl, ty⟩, e, s⟩ := tok
    unfold get_current_user
    by_cases hs : s = JWT_SECRET
    · by_cases he : e ≤ now
      · simp [decode_token, hs, he]
      · simp [decode_token, hs, he]
    · simp [decode_token, hs]

/-- C1 witness: the admin's login-minted access token (whose claims lack
`type = "refresh"`) is rejected by `/auth/refresh`. -/
theorem c1_access_refresh_separation_witness :
    exceptOk (refresh_token adminStore2 adminAccess 0) = false :=
  (c1_access_refresh_separation adminStore2 adminAccess 0).1 (by decide)

/-- C2: with a truthy identifier, if the lookup resolves to a stored user and
the password verifies against that user's hash, login succeeds and returns
that user's summary; if the lookup fails, or the hash comparison fails, login
returns the very same `HTTPException ⟨401, "Invalid credentials"⟩` value, so
the two failure causes are indistinguishable to the caller. -/
theorem c2_login_verify_credentials (st : Store) (username email : Option String)
    (password : String) (now : Int)
    (hcred : (truthyStr username || truthyStr email) = true) :
    (∀ u, st.user.find? (login_query username email) = some u →
      verify_password password u.password_hash = true →
      login_user_summary (login st username email password now)
        = some (u.username, u.email, u.role))
    ∧ (st.user.find? (login_query username email) = none →
      login st username email password now
        = Except.error ⟨401, "Invalid credentials"⟩)
    ∧ (∀ u, st.user.find? (login_query username email) = some u →
      verify_password password u.password_hash = false →
      login st username email password now
        = Except.error ⟨401, "Invalid credentials"⟩) := by
  have hcond : (!truthyStr username && !truthyStr email) = false := by
    cases h1 : truthyStr username <;> cases h2 : truthyStr email <;>
      simp_all
  refine ⟨?_, ?_, ?_⟩
  · intro u hu hv
    simp [login, hcond, hu, hv, login_user_summary]
  · intro hu
    simp [login, hcond, hu]
  · intro u hu hv
    simp [login, hcond, hu, hv]

/-- C2 witness: correct admin credentials log in and return the admin
summary; an unknown username and a wrong password both produce the same
401 "Invalid credentials" value. -/
theorem c2_login_verify_credentials_witness :
    login_user_summary (login adminStore (some "admin") none "bendahara" 0)
      = some ("admin", "bendahara@gmail.com", "admin")
    ∧ login adminStore (some "ghost") none "bendahara" 0
      = Except.error ⟨401, "Invalid credentials"⟩
    ∧ login adminStore (some "admin") none "wrong" 0
      = Except.error ⟨401, "Invalid credentials"⟩ :=
  ⟨(c2_login_verify_credentials adminStore (some "admin") none "bendahara" 0
      (by decide)).1 adminUser rfl rfl,
   (c2_login_verify_credentials adminStore (some "ghost") none "bendahara" 0
      (by decide)).2.1 rfl,
   (c2_login_verify_credentials adminStore (some "admin") none "wrong" 0
      (by decide)).2.2 adminUser rfl rfl⟩

/-- C3 counterexample: a successful `/auth/refresh` mints an access token
whose claims carry NO `username` and NO `role` (only `uid`), contradicting
the claim that every minted access token carries all three. -/
theorem c3_counterexample :
    refresh_token adminStore2 adminRefresh 0
      = Except.ok (create_token ⟨some "u1", none, none, none⟩ 0
          (60 * ACCESS_EXPIRES_MIN), adminStore2)
    ∧ (create_token ⟨some "u1", none, none, none⟩ 0
        (60 * ACCESS_EXPIRES_MIN)).claims.username = none
    ∧ (create_token ⟨some "u1", none, none, none⟩ 0
        (60 * ACCESS_EXPIRES_MIN)).claims.role = none :=
  ⟨rfl, rfl, rfl⟩

/-- C3 (amended): the login-minted access token carries `uid`, `username`,
`role` and expiry = issuance + the configured access-token lifetime
(default 30 minutes); the refresh-minted access token carries the same
expiry but ONLY the `uid` claim, copying it from the refresh token. -/
theorem c3_access_token_claims (st : Store) :
    (∀ (username email : Option String) (password : String) (now : Int)
        (u : UserDoc) (r : LoginResult) (st2 : Store),
      st.user.find? (login_query username email) = some u →
      login st username email password now = Except.ok (r, st2) →
      r.access_token.claims = ⟨some u.id, some u.username, some u.role, none⟩
        ∧ r.access_token.exp = now + 60 * ACCESS_EXPIRES_MIN)
    ∧ (∀ (rt : Token) (now : Int) (tok : Token) (st2 : Store),
      refresh_token st rt now = Except.ok (tok, st2) →
      tok.claims = ⟨rt.claims.uid, none, none, none⟩
        ∧ tok.exp = now + 60 * ACCESS_EXPIRES_MIN) := by
  constructor
  · intro username email password now u r st2 hu hlogin
    obtain ⟨u2, hfind2, -, hr, -⟩ := login_ok_inv hlogin
    have heq : u = u2 := by
      have h2 := hu.symm.trans hfind2
      exact Option.some.inj h2
    subst heq
    subst hr
    exact ⟨rfl, rfl⟩
  · intro rt now tok st2 h
    obtain ⟨-, -, -, -, htok, -⟩ := refresh_token_ok_inv h
    subst htok
    exact ⟨rfl, rfl⟩

/-- C3 witness: the admin's login-minted access token carries all three
claims; the refresh-minted one carries only the uid. -/
theorem c3_access_token_claims_witness :
    (adminLoginResult.access_token.claims
        = ⟨some "u1", some "admin", some "admin", none⟩
      ∧ adminLoginResult.access_token.exp = 0 + 60 * ACCESS_EXPIRES_MIN)
    ∧ ((create_token ⟨some "u1", none, none, none⟩ 0
          (60 * ACCESS_EXPIRES_MIN)).claims
        = ⟨adminRefresh.claims.uid, none, none, none⟩
      ∧ (create_token ⟨some "u1", none, none, none⟩ 0
          (60 * ACCESS_EXPIRES_MIN)).exp = 0 + 60 * ACCESS_EXPIRES_MIN) :=
  ⟨(c3_access_token_claims adminStore).1 (some "admin") none "bendahara" 0
      adminUser adminLoginResult adminStore2 rfl rfl,
   (c3_access_token_claims adminStore2).2 adminRefresh 0
      (create_token ⟨some "u1", none, none, none⟩ 0 (60 * ACCESS_EXPIRES_MIN))
      adminStore2 rfl⟩

/-- C4: `/auth/refresh` fails with 400 "Invalid refresh token" when the
decoded claim `type` is not "refresh"; fails with 401 "Refresh token not
recognized" when the token decodes as a refresh token but no persisted
`refreshtoken` record holds that exact token; and never succeeds on a token
whose claims lack `type = "refresh"` (an access token). -/
theorem c4_refresh_error_classes (st : Store) (tok : Token) (now : Int) :
    (∀ c, decode_token tok now = Except.ok c → c.type ≠ some "refresh" →
      refresh_token st tok now = Except.error ⟨400, "Invalid refresh token"⟩)
    ∧ (∀ c, decode_token tok now = Except.ok c → c.type = some "refresh" →
      st.refreshtoken.find? (fun d => d.token == tok) = none →
      refresh_token st tok now
        = Except.error ⟨401, "Refresh token not recognized"⟩)
    ∧ (tok.claims.type ≠ some "refresh" →
      exceptOk (refresh_token st tok now) = false) := by
  refine ⟨?_, ?_, ?_⟩
  · intro c hd hty
    unfold refresh_token
    rw [hd]
    simp [bne_iff_ne, hty]
  · intro c hd hty hfind
    unfold refresh_token
    rw [hd]
    simp [hty, hfind]
  · intro h
    unfold refresh_token
    cases hd : decode_token tok now with
    | error e => rfl
    | ok c =>
      obtain ⟨-, -, hc⟩ := decode_token_ok_iff.mp hd
      subst hc
      simp [bne_iff_ne, h, exceptOk]

/-- C4 witness: the admin's access token is rejected with the 400
type-mismatch error and never succeeds; the admin's refresh token, presented
against a store that never persisted it, fails with the 401 not-recognized
error. -/
theorem c4_refresh_error_classes_witness :
    refresh_token adminStore2 adminAccess 0
      = Except.error ⟨400, "Invalid refresh token"⟩
    ∧ refresh_token adminStore adminRefresh 0
      = Except.error ⟨401, "Refresh token not recognized"⟩
    ∧ exceptOk (refresh_token adminStore2 adminAccess 0) = false :=
  ⟨(c4_refresh_error_classes adminStore2 adminAccess 0).1
      adminAccess.claims rfl (by decide),
   (c4_refresh_error_classes adminStore adminRefresh 0).2.1
      adminRefresh.claims rfl rfl rfl,
   (c4_refresh_error_classes adminStore2 adminAccess 0).2.2 (by decide)⟩

/-- C7: round-trip — for a stored user whose username and id resolve to it
(unique, truthy identifiers), logging in and presenting the minted access
token to `get_current_user` before its expiry resolves to that very user. -/
theorem c7_login_roundtrip (st : Store) (u : UserDoc) (password : String)
    (now now2 : Int) (r : LoginResult) (st2 : Store)
    (hfindU : st.user.find? (login_query (some u.username) none) = some u)
    (hfindId : st.user.find? (fun v => v.id == u.id) = some u)
    (hid : u.id ≠ "")
    (hlogin : login st (some u.username) none password now = Except.ok (r, st2))
    (hnow : now2 < now + 60 * ACCESS_EXPIRES_MIN) :
    get_current_user st2 (some r.access_token) now2 = Except.ok u := by
  obtain ⟨u2, hfind2, -, hr, hst2⟩ := login_ok_inv hlogin
  have heq : u = u2 := Option.some.inj (hfindU.symm.trans hfind2)
  subst heq
  subst hr
  subst hst2
  have hdec : decode_token
      (create_token ⟨some u.id, some u.username, some u.role, none⟩ now
        (60 * ACCESS_EXPIRES_MIN)) now2
      = Except.ok ⟨some u.id, some u.username, some u.role, none⟩ :=
    decode_token_ok_iff.mpr ⟨rfl, hnow, rfl⟩
  unfold get_current_user
  simp [hdec, truthyStr, hid, hfindId]

/-- C7 witness: the admin logs in at time 0 and the minted access token
authenticates as the admin at time 0. -/
theorem c7_login_roundtrip_witness :
    get_current_user adminStore2 (some adminLoginResult.access_token) 0
      = Except.ok adminUser :=
  c7_login_roundtrip adminStore adminUser "bendahara" 0 0 adminLoginResult
    adminStore2 rfl rfl (by decide) rfl (by decide)

/-- C8: a successful `/auth/refresh` leaves the whole store — in particular
the persisted `refreshtoken` collection — unchanged, and the presented
refresh token keeps succeeding on the resulting store at any instant before
its own expiry. -/
theorem c8_refresh_preserves_store (st : Store) (rt : Token) (now : Int)
    (tok : Token) (st2 : Store)
    (h : refresh_token st rt now = Except.ok (tok, st2)) :
    st2 = st
    ∧ ∀ now2, now2 < rt.exp → exceptOk (refresh_token st2 rt now2) = true := by
  obtain ⟨hs, -, hty, ⟨d, hfind⟩, -, hst⟩ := refresh_token_ok_inv h
  subst hst
  refine ⟨rfl, ?_⟩
  intro now2 hlt
  have hdec : decode_token rt now2 = Except.ok rt.claims :=
    decode_token_ok_iff.mpr ⟨hs, hlt, rfl⟩
  unfold refresh_token
  rw [hdec]
  simp [hty, hfind, exceptOk]

/-- C8 witness: after the admin's refresh succeeds at time 0, the same
refresh token still succeeds at time 100 on the unchanged store. -/
theorem c8_refresh_preserves_store_witness :
    exceptOk (refresh_token adminStore2 adminRefresh 100) = true :=
  (c8_refresh_preserves_store adminStore2 adminRefresh 0
    (create_token ⟨some "u1", none, none, none⟩ 0 (60 * ACCESS_EXPIRES_MIN))
    adminStore2 rfl).2 100 (by decide)

end Treasurer
